import Mathlib

/-!
Verification of `covid_tests_sesab.py`: a shallow embedding of the script's
reconciliation pipeline (tagging the confirmed / discarded / suspected tables
with a boolean TESTE flag, concatenating, filtering invalid notification
dates, caching) and of its reporting function (municipality filter, daily
resampling, rolling mean, the `> 1` series filter and the confirmed/tested
ratio), together with theorems settling the specification claims.

Dates are modelled after parsing: a record's notification date is an optional
value carrying the parsed year and an ordinal calendar-day key (the script
parses `DATA DA NOTIFICACAO` with `pd.to_datetime` and afterwards only uses
`.dt.year` and the daily resampling index).  Missing values (`NaN`) of the
nullable text columns are `Option.none`.
-/

/-- A calendar day, as an ordinal key (the daily resampling index). -/
abbrev Dia := Nat

/-- A parsed notification date: the year (used by the `>= 2020` filter) and
the calendar-day ordinal (used by `resample("1d")`). -/
structure Data where
  ano : Nat
  dia : Dia
deriving DecidableEq, Repr

/-- Source category tag, the `FONTE` column added to each raw table. -/
inductive Fonte where
  | CONFIRMADOS
  | DESCARTADOS
  | SUSPEITOS
deriving DecidableEq, Repr

/-- A raw input row, restricted to the columns the script reads:
`DATA DA NOTIFICACAO` (after parsing), `MUNICIPIO DE RESIDENCIA`, and the
four nullable test columns of the suspected table (`TIPO DE TESTE`,
`DATA DA COLETA DO TESTE`, `RESULTADO DO TESTE`, `ESTADO DO TESTE`). -/
structure LinhaBruta where
  dataNotificacao : Option Data
  municipio : String
  tipoDeTeste : Option String
  dataColetaTeste : Option String
  resultadoTeste : Option String
  estadoDoTeste : Option String
deriving DecidableEq, Repr

/-- A reconciled record: the `colunas_interessantes` of the script
(`DATA DA NOTIFICACAO`, `MUNICIPIO DE RESIDENCIA`, `TESTE`, `FONTE`,
`DATA DA COLETA DO TESTE`). -/
structure Registro where
  dataNotificacao : Option Data
  municipio : String
  teste : Bool
  fonte : Fonte
  dataColetaTeste : Option String
deriving DecidableEq, Repr

/-- The TESTE flag of a suspected row: the script first assigns the
disjunction of the three non-null checks on `TIPO DE TESTE`,
`DATA DA COLETA DO TESTE` and `RESULTADO DO TESTE`, then overwrites with
`False` every row whose `ESTADO DO TESTE` equals the literal
`"EXAME NAO SOLICITADO"` (a null `ESTADO DO TESTE` never equals the
literal, so it is left untouched). -/
def testeSuspeito (r : LinhaBruta) : Bool :=
  if r.estadoDoTeste = some "EXAME NAO SOLICITADO" then
    false
  else
    r.tipoDeTeste.isSome || r.dataColetaTeste.isSome || r.resultadoTeste.isSome

/-- Tag one raw row with its source category and TESTE flag, and select the
`colunas_interessantes`.  Confirmed and discarded rows get `TESTE = True`
unconditionally; suspected rows get `testeSuspeito`. -/
def marcarLinha (fonte : Fonte) (r : LinhaBruta) : Registro :=
  { dataNotificacao := r.dataNotificacao
    municipio := r.municipio
    teste :=
      match fonte with
      | .CONFIRMADOS => true
      | .DESCARTADOS => true
      | .SUSPEITOS => testeSuspeito r
    fonte := fonte
    dataColetaTeste := r.dataColetaTeste }

/-- `pd.concat` of the three tagged tables, confirmed rows first, then
discarded, then suspected. -/
def combinar (confirmados descartados suspeitos : List LinhaBruta) :
    List Registro :=
  confirmados.map (marcarLinha .CONFIRMADOS) ++
    descartados.map (marcarLinha .DESCARTADOS) ++
    suspeitos.map (marcarLinha .SUSPEITOS)

/-- The script's condition 3 filter: `~combinado["DATA DA NOTIFICACAO"].isnull()`. -/
def temData (r : Registro) : Bool :=
  r.dataNotificacao.isSome

/-- The script's invalid-date filter: `combinado["DATA DA NOTIFICACAO"].dt.year >= 2020`. -/
def anoValido (r : Registro) : Bool :=
  match r.dataNotificacao with
  | some dt => decide (2020 ≤ dt.ano)
  | none => false

/-- Reconciliation: tag and concatenate the three tables, drop rows with a
null notification date, then drop rows whose parsed year is before 2020. -/
def reconciliar (confirmados descartados suspeitos : List LinhaBruta) :
    List Registro :=
  ((combinar confirmados descartados suspeitos).filter temData).filter anoValido

/-- A daily time series with possibly-missing values per calendar day
(`NaN` entries and days outside the series index are both `none`). -/
abbrev Serie := Dia → Option ℚ

/-- `combinado.resample("1d")["TESTE"].count()`: the number of rows whose
notification date falls on day `d` (the TESTE column is never null, so
`count` is the row count). -/
def contagemDiaria (regs : List Registro) (d : Dia) : Nat :=
  (regs.filter fun r =>
    match r.dataNotificacao with
    | some dt => dt.dia == d
    | none => false).length

/-- The calendar days carried by the rows, for the resampling index range. -/
def diasDe (regs : List Registro) : List Dia :=
  regs.filterMap fun r => r.dataNotificacao.map Data.dia

/-- First day of the resampled index (minimum notification day). -/
def diaMinimo : List Dia → Option Dia
  | [] => none
  | d :: ds => some (ds.foldl min d)

/-- Last day of the resampled index (maximum notification day). -/
def diaMaximo : List Dia → Option Dia
  | [] => none
  | d :: ds => some (ds.foldl max d)

/-- `.rolling(window=w).mean()` over the daily counts: on day `d` of the
resampled index, the mean of the counts of the `w` days ending at `d`, and a
missing value (`NaN`) on the first `w - 1` days of the index, where fewer
than `w` observations are available. -/
def serieRolada (regs : List Registro) (w : Nat) : Serie := fun d =>
  match diaMinimo (diasDe regs), diaMaximo (diasDe regs) with
  | some dmin, some dmax =>
      if dmin + w ≤ d + 1 ∧ d ≤ dmax then
        some (((Finset.range w).sum fun i => (contagemDiaria regs (d - i) : ℚ)) / (w : ℚ))
      else none
  | _, _ => none

/-- `s = s[s > 1]`: keep only the days whose value is strictly greater
than 1 (a missing value compares false, so it is dropped too). -/
def filtrarMaiorQueUm (s : Serie) : Serie := fun d =>
  match s d with
  | some v => if 1 < v then some v else none
  | none => none

/-- `ratio = confirmado / tests`: pandas aligns the two indices; the
quotient exists on a day only when both series carry a value there, and a
day present in just one series yields a missing value, not zero. -/
def razao (confirmado tests : Serie) : Serie := fun d =>
  match confirmado d, tests d with
  | some c, some t => some (c / t)
  | _, _ => none

/-- The reporter's municipality filter: if the city is not the sentinel
`"BAHIA"`, keep exactly the rows whose `MUNICIPIO DE RESIDENCIA` equals the
requested name (exact, case-sensitive string equality); for `"BAHIA"` keep
all rows. -/
def filtrarCidade (combinado : List Registro) (cidade : String) : List Registro :=
  if cidade ≠ "BAHIA" then
    combinado.filter fun r => r.municipio == cidade
  else
    combinado

/-- `combinado = combinado[combinado["TESTE"]]`: the tested-only pre-filter
applied once before the report loop. -/
def filtrarTestados (regs : List Registro) : List Registro :=
  regs.filter fun r => r.teste

/-- The diagnostic printed when the municipality filter leaves no rows. -/
def mensagemErro : String :=
  "Erro: Nenhum registro encontrado. Cidade não está listada ou nome está errado ou fora do padrão aceitado. Gráfico não gerado."

/-- The chart assembled by `plotar_testes_por_cidade`: the annotated total
`N` and the three plotted series (tested, confirmed, ratio). -/
structure Grafico where
  n : Nat
  tests : Serie
  confirmado : Serie
  razaoSerie : Serie

/-- Outcome of one call of `plotar_testes_por_cidade`: either the printed
soft-failure diagnostic with no chart, or a chart. -/
inductive ResultadoPlot where
  | erroSemRegistros (mensagem : String)
  | plotado (g : Grafico)

/-- `plotar_testes_por_cidade`: filter to the requested municipality (the
reassignment rebinds only this local table), count the rows as `N`; if
`N = 0` print the diagnostic and return without a chart; otherwise resample
both series daily, take the rolling mean, drop days whose rolled value is
not `> 1` from each series, and take the pointwise ratio. -/
def plotar (combinado : List Registro) (cidade : String)
    (tamanhoDaJanela : Nat) : ResultadoPlot :=
  let filtrado := filtrarCidade combinado cidade
  let n := filtrado.length
  if n = 0 then
    .erroSemRegistros mensagemErro
  else
    let tests := filtrarMaiorQueUm (serieRolada filtrado tamanhoDaJanela)
    let confirmado := filtrarMaiorQueUm
      (serieRolada (filtrado.filter fun r => r.fonte == Fonte.CONFIRMADOS) tamanhoDaJanela)
    .plotado
      { n := n
        tests := tests
        confirmado := confirmado
        razaoSerie := razao confirmado tests }

/-- The `__main__` report loop: each requested city is processed in order,
every call receiving the shared tested-only table; the pair carries the
caller's table binding through the loop together with the outcomes. -/
def lacoDeRelatorios (combinado : List Registro) (cidades : List String)
    (janela : Nat) : List Registro × List ResultadoPlot :=
  cidades.foldl
    (fun acc cidade => (acc.1, acc.2 ++ [plotar acc.1 cidade janela]))
    (combinado, [])

/-- `combinado.resample("1d")["TESTE"].count()` of the reporter, prior to
rolling. -/
def serieTestesDiaria (combinado : List Registro) : Dia → Nat :=
  contagemDiaria combinado

/-- `combinado.loc[combinado.FONTE == "CONFIRMADOS"].resample("1d")["TESTE"].count()`
of the reporter, prior to rolling. -/
def serieConfirmadosDiaria (combinado : List Registro) : Dia → Nat :=
  contagemDiaria (combinado.filter fun r => r.fonte == Fonte.CONFIRMADOS)

/-- `arquivos[0].split("_")[-1].split(".")[0]`: the extraction date taken
from the first matched file name. -/
def extrairData (arquivo : String) : String :=
  (((arquivo.splitOn "_").getLastD "").splitOn ".").headD ""

/-- How a run of `__main__` can fail fatally: the unhandled out-of-bounds
indexing of `arquivos[0]` when the glob matches nothing, or the
human-readable `sys.exit` message. -/
inductive ErroFatal where
  | indiceForaDoLimite
  | saida (mensagem : String)
deriving DecidableEq, Repr

/-- Observable outcome of a successful run of `__main__`: the extraction
date, the table bound to `combinado` before the tested-only pre-filter, the
cache write (if any) and the report outcomes. -/
structure Execucao where
  dataExtracao : String
  tabelaUsada : List Registro
  cacheEscrito : Option (List Registro)
  resultados : List ResultadoPlot

/-- The `sys.exit` message of the file-count check. -/
def mensagemSaida : String :=
  "Número de arquivos diferente de 3, cheque os arquivos e rode novamente."

/-- The `__main__` flow after `glob`: index `arquivos[0]` to extract the
date (an out-of-bounds failure when no file matched, before anything else);
if the cache file for that date exists, load it and never touch the raw
tables; otherwise exit fatally unless exactly 3 files matched, else
reconcile the raw tables and write the cache; finally pre-filter to tested
rows and run the report loop.  The filesystem is abstracted: `cacheExiste`
says whether the cache file exists, `cache` is its content, and the three
raw tables are the parsed contents of the three input files. -/
def rodarPrograma (arquivos : List String) (cacheExiste : Bool)
    (cache : List Registro)
    (confirmados descartados suspeitos : List LinhaBruta)
    (cidades : List String) (janela : Nat) : Except ErroFatal Execucao :=
  match arquivos with
  | [] => .error .indiceForaDoLimite
  | arquivo0 :: resto =>
    let data := extrairData arquivo0
    if cacheExiste then
      .ok { dataExtracao := data
            tabelaUsada := cache
            cacheEscrito := none
            resultados := (lacoDeRelatorios (filtrarTestados cache) cidades janela).2 }
    else if (arquivo0 :: resto).length ≠ 3 then
      .error (.saida mensagemSaida)
    else
      let combinado := reconciliar confirmados descartados suspeitos
      .ok { dataExtracao := data
            tabelaUsada := combinado
            cacheEscrito := some combinado
            resultados := (lacoDeRelatorios (filtrarTestados combinado) cidades janela).2 }

/-- Claim C1: the reconciler sets `TESTE = True` unconditionally on every
confirmed and every discarded row; on a suspected row, `TESTE = True` iff at
least one of test type, test collection date, test result is non-null, except
that `TESTE = False` whenever `ESTADO DO TESTE` equals the literal
`"EXAME NAO SOLICITADO"`, the override taking precedence. -/
theorem teste_atribuido_por_fonte (r : LinhaBruta) :
    (marcarLinha .CONFIRMADOS r).teste = true ∧
    (marcarLinha .DESCARTADOS r).teste = true ∧
    (r.estadoDoTeste = some "EXAME NAO SOLICITADO" →
      (marcarLinha .SUSPEITOS r).teste = false) ∧
    (r.estadoDoTeste ≠ some "EXAME NAO SOLICITADO" →
      ((marcarLinha .SUSPEITOS r).teste = true ↔
        (r.tipoDeTeste.isSome ∨ r.dataColetaTeste.isSome ∨
          r.resultadoTeste.isSome))) := by
  refine ⟨rfl, rfl, ?_, ?_⟩
  · intro h
    simp [marcarLinha, testeSuspeito, h]
  · intro h
    simp [marcarLinha, testeSuspeito, h, or_assoc]

/-- Witness for `teste_atribuido_por_fonte` at a concrete suspected row on
which the override fires despite a non-null test type. -/
theorem teste_atribuido_por_fonte_witness :
    (marcarLinha .SUSPEITOS
      { dataNotificacao := some ⟨2021, 10⟩
        municipio := "ITABUNA"
        tipoDeTeste := some "RT-PCR"
        dataColetaTeste := none
        resultadoTeste := none
        estadoDoTeste := some "EXAME NAO SOLICITADO" }).teste = false :=
  (teste_atribuido_por_fonte _).2.2.1 rfl

/-- Claim C2: every record of the reconciled table has a non-null boolean
TESTE flag and a non-null notification date with parsed year at least 2020;
moreover any concatenated row with a null notification date, or with a
pre-2020 year, is dropped by reconciliation itself. -/
theorem invariante_reconciliacao (confirmados descartados suspeitos : List LinhaBruta)
    (r : Registro) (h : r ∈ reconciliar confirmados descartados suspeitos) :
    (r.teste = true ∨ r.teste = false) ∧
    (∃ dt, r.dataNotificacao = some dt ∧ 2020 ≤ dt.ano) ∧
    (∀ s ∈ combinar confirmados descartados suspeitos,
      (s.dataNotificacao = none ∨ ∃ dt, s.dataNotificacao = some dt ∧ dt.ano < 2020) →
        s ∉ reconciliar confirmados descartados suspeitos) := by
  refine ⟨by cases r.teste <;> simp, ?_, ?_⟩
  · have h2 := List.of_mem_filter h
    cases hd : r.dataNotificacao with
    | none => simp [anoValido, hd] at h2
    | some dt =>
      refine ⟨dt, rfl, ?_⟩
      rw [anoValido, hd] at h2
      exact of_decide_eq_true h2
  · intro s _ hbad hmem
    have h2 := List.of_mem_filter hmem
    rcases hbad with hnone | ⟨dt, hdt, hlt⟩
    · simp [anoValido, hnone] at h2
    · rw [anoValido, hdt] at h2
      exact absurd (of_decide_eq_true h2) (by omega)

/-- Witness for `invariante_reconciliacao` at a single concrete confirmed
row dated in 2021. -/
theorem invariante_reconciliacao_witness :
    ∃ dt, (marcarLinha .CONFIRMADOS
      { dataNotificacao := some ⟨2021, 5⟩
        municipio := "ILHEUS"
        tipoDeTeste := none
        dataColetaTeste := none
        resultadoTeste := none
        estadoDoTeste := none }).dataNotificacao = some dt ∧ 2020 ≤ dt.ano :=
  (invariante_reconciliacao
    [{ dataNotificacao := some ⟨2021, 5⟩
       municipio := "ILHEUS"
       tipoDeTeste := none
       dataColetaTeste := none
       resultadoTeste := none
       estadoDoTeste := none }] [] [] _ (by decide)).2.1

theorem lacoDeRelatorios_eq (combinado : List Registro) (cidades : List String)
    (janela : Nat) :
    lacoDeRelatorios combinado cidades janela =
      (combinado, cidades.map fun c => plotar combinado c janela) := by
  have geral : ∀ (cs : List String) (acc : List ResultadoPlot),
      cs.foldl (fun acc' cidade => (acc'.1, acc'.2 ++ [plotar acc'.1 cidade janela]))
        (combinado, acc) =
      (combinado, acc ++ cs.map fun c => plotar combinado c janela) := by
    intro cs
    induction cs with
    | nil => simp
    | cons c cs ih => intro acc; simp [List.foldl_cons, ih]
  simpa [lacoDeRelatorios] using geral cidades []

/-- Claim C4: a requested municipality whose filtered row count is zero
produces the soft-failure diagnostic and no chart (the function simply
returns, no exception), and the batch loop still processes every other
requested municipality in the order given. -/
theorem relatorio_sem_registros (combinado : List Registro) (cidade : String)
    (janela : Nat) (antes depois : List String)
    (h : (filtrarCidade combinado cidade).length = 0) :
    plotar combinado cidade janela = .erroSemRegistros mensagemErro ∧
    (lacoDeRelatorios combinado (antes ++ cidade :: depois) janela).2 =
      (antes ++ cidade :: depois).map fun c => plotar combinado c janela := by
  constructor
  · simp [plotar, h]
  · rw [lacoDeRelatorios_eq]

/-- Witness for `relatorio_sem_registros`: an empty table and the city
`"ITABUNA"` yield the diagnostic, inside a batch of three cities. -/
theorem relatorio_sem_registros_witness :
    plotar [] "ITABUNA" 7 = .erroSemRegistros mensagemErro ∧
    (lacoDeRelatorios [] (["BAHIA"] ++ "ITABUNA" :: ["ILHEUS"]) 7).2 =
      (["BAHIA"] ++ "ITABUNA" :: ["ILHEUS"]).map fun c => plotar [] c 7 :=
  relatorio_sem_registros [] "ITABUNA" 7 ["BAHIA"] ["ILHEUS"] rfl

/-- Claim C5: before the ratio is computed, each series drops every day
whose rolled value is at most 1 (the same `> 1` filter applied to both);
the ratio is then the pointwise quotient confirmed/tested on the days where
both filtered series carry a value, and a day present in only one filtered
series yields a missing ratio value, not zero. -/
theorem filtro_e_razao (testsR confirmadoR : Serie) (d : Dia) :
    (∀ v, testsR d = some v → v ≤ 1 → filtrarMaiorQueUm testsR d = none) ∧
    (∀ v, confirmadoR d = some v → v ≤ 1 → filtrarMaiorQueUm confirmadoR d = none) ∧
    (∀ c t, filtrarMaiorQueUm confirmadoR d = some c →
      filtrarMaiorQueUm testsR d = some t →
      razao (filtrarMaiorQueUm confirmadoR) (filtrarMaiorQueUm testsR) d =
        some (c / t)) ∧
    (filtrarMaiorQueUm confirmadoR d = none ∨ filtrarMaiorQueUm testsR d = none →
      razao (filtrarMaiorQueUm confirmadoR) (filtrarMaiorQueUm testsR) d = none) := by
  refine ⟨?_, ?_, ?_, ?_⟩
  · intro v hv hle
    simp [filtrarMaiorQueUm, hv, not_lt_of_le hle]
  · intro v hv hle
    simp [filtrarMaiorQueUm, hv, not_lt_of_le hle]
  · intro c t hc ht
    simp [razao, hc, ht]
  · rintro (hn | hn) <;> simp [razao, hn]

/-- Witness for `filtro_e_razao`: a rolled value of exactly 1 is discarded,
and on a day where both filtered series carry a value the ratio is their
quotient. -/
theorem filtro_e_razao_witness :
    filtrarMaiorQueUm (fun _ => some (1 : ℚ)) 0 = none ∧
    razao (filtrarMaiorQueUm fun _ => some (4 : ℚ))
      (filtrarMaiorQueUm fun _ => some (2 : ℚ)) 0 = some (4 / 2) :=
  ⟨(filtro_e_razao (fun _ => some (1 : ℚ)) (fun _ => some (1 : ℚ)) 0).1 1 rfl le_rfl,
   (filtro_e_razao (fun _ => some (2 : ℚ)) (fun _ => some (4 : ℚ)) 0).2.2.1 4 2
     (by norm_num [filtrarMaiorQueUm]) (by norm_num [filtrarMaiorQueUm])⟩

/-- Claim C6: on every calendar day, the daily confirmed count is at most
the daily tested count taken over the same filtered rows, prior to rolling:
the confirmed series counts a subset of the rows counted by the tested
series. -/
theorem confirmados_no_maximo_testes (combinado : List Registro) (d : Dia) :
    serieConfirmadosDiaria combinado d ≤ serieTestesDiaria combinado d := by
  unfold serieConfirmadosDiaria serieTestesDiaria contagemDiaria
  exact List.Sublist.length_le
    (List.Sublist.filter _ (List.filter_sublist combinado))

/-- Claim C7: with the sentinel city `"BAHIA"` the reporter keeps the whole
table; with any other name it keeps exactly the rows whose municipality is
string-equal to it; and the chart's annotated total `N` is the filtered row
count. -/
theorem filtro_municipio (combinado : List Registro) (cidade : String)
    (r : Registro) (janela : Nat) :
    (cidade = "BAHIA" → filtrarCidade combinado cidade = combinado) ∧
    (cidade ≠ "BAHIA" →
      (r ∈ filtrarCidade combinado cidade ↔ r ∈ combinado ∧ r.municipio = cidade)) ∧
    (∀ g, plotar combinado cidade janela = .plotado g →
      g.n = (filtrarCidade combinado cidade).length) := by
  refine ⟨?_, ?_, ?_⟩
  · intro h
    simp [filtrarCidade, h]
  · intro h
    simp [filtrarCidade, h, List.mem_filter]
  · intro g hg
    rw [plotar] at hg
    by_cases h0 : (filtrarCidade combinado cidade).length = 0
    · simp [h0] at hg
    · simp [h0] at hg
      rw [← hg]

/-- Witness for `filtro_municipio` at a concrete one-row table, with the
sentinel and with an exact-match city name. -/
theorem filtro_municipio_witness :
    filtrarCidade [⟨some ⟨2021, 3⟩, "ITABUNA", true, .CONFIRMADOS, none⟩] "BAHIA" =
      [⟨some ⟨2021, 3⟩, "ITABUNA", true, .CONFIRMADOS, none⟩] ∧
    ((⟨some ⟨2021, 3⟩, "ITABUNA", true, .CONFIRMADOS, none⟩ : Registro) ∈
        filtrarCidade [⟨some ⟨2021, 3⟩, "ITABUNA", true, .CONFIRMADOS, none⟩] "ITABUNA" ↔
      (⟨some ⟨2021, 3⟩, "ITABUNA", true, .CONFIRMADOS, none⟩ : Registro) ∈
        [(⟨some ⟨2021, 3⟩, "ITABUNA", true, .CONFIRMADOS, none⟩ : Registro)] ∧
      (⟨some ⟨2021, 3⟩, "ITABUNA", true, .CONFIRMADOS, none⟩ : Registro).municipio =
        "ITABUNA") :=
  ⟨(filtro_municipio [⟨some ⟨2021, 3⟩, "ITABUNA", true, .CONFIRMADOS, none⟩]
      "BAHIA" ⟨some ⟨2021, 3⟩, "ITABUNA", true, .CONFIRMADOS, none⟩ 7).1 rfl,
   (filtro_municipio [⟨some ⟨2021, 3⟩, "ITABUNA", true, .CONFIRMADOS, none⟩]
      "ITABUNA" ⟨some ⟨2021, 3⟩, "ITABUNA", true, .CONFIRMADOS, none⟩ 7).2.1
     (by decide)⟩

/-- Claim C10: the report loop never mutates the shared table: after any
batch, the caller's table binding is unchanged, and every report in the
batch received that same table. -/
theorem tabela_preservada_pelo_laco (combinado : List Registro)
    (cidades : List String) (janela : Nat) :
    (lacoDeRelatorios combinado cidades janela).1 = combinado ∧
    (lacoDeRelatorios combinado cidades janela).2 =
      cidades.map fun c => plotar combinado c janela := by
  rw [lacoDeRelatorios_eq]
  exact ⟨rfl, rfl⟩

/-- Claim C3: when the cache file for the extraction date already exists,
no reconciliation happens: the run is unchanged under any mutation of the
raw inputs, the cache is not rewritten, and the table used for reporting is
the cached table. -/
theorem cache_existente_ignora_brutos (arquivos : List String)
    (cache : List Registro) (c d s c' d' s' : List LinhaBruta)
    (cidades : List String) (janela : Nat) :
    rodarPrograma arquivos true cache c d s cidades janela =
      rodarPrograma arquivos true cache c' d' s' cidades janela ∧
    ∀ ex, rodarPrograma arquivos true cache c d s cidades janela = .ok ex →
      ex.cacheEscrito = none ∧ ex.tabelaUsada = cache := by
  cases arquivos with
  | nil =>
    refine ⟨rfl, ?_⟩
    intro ex hex
    simp [rodarPrograma] at hex
  | cons a resto =>
    refine ⟨rfl, ?_⟩
    intro ex hex
    simp [rodarPrograma] at hex
    rw [← hex]
    exact ⟨rfl, rfl⟩

/-- Witness for `cache_existente_ignora_brutos`: a pre-existing empty cache
with one raw confirmed row on disk; the cache is not rewritten and the
cached (empty) table is the one used. -/
theorem cache_existente_ignora_brutos_witness :
    ({ dataExtracao := extrairData "Banco Estadual COVID-19 CONFIRMADOS_2021-01-01.csv"
       tabelaUsada := []
       cacheEscrito := none
       resultados := [] } : Execucao).cacheEscrito = none ∧
    ({ dataExtracao := extrairData "Banco Estadual COVID-19 CONFIRMADOS_2021-01-01.csv"
       tabelaUsada := []
       cacheEscrito := none
       resultados := [] } : Execucao).tabelaUsada = ([] : List Registro) :=
  (cache_existente_ignora_brutos
    ["Banco Estadual COVID-19 CONFIRMADOS_2021-01-01.csv"] []
    [{ dataNotificacao := some ⟨2021, 1⟩
       municipio := "SALVADOR"
       tipoDeTeste := none
       dataColetaTeste := none
       resultadoTeste := none
       estadoDoTeste := none }] [] [] [] [] [] [] 7).2
    { dataExtracao := extrairData "Banco Estadual COVID-19 CONFIRMADOS_2021-01-01.csv"
      tabelaUsada := []
      cacheEscrito := none
      resultados := [] } rfl

/-- Claim C8: with the cache absent and a number of matched files other
than three (at least one file matched, so the date extraction succeeded),
the run is exactly the fatal human-readable exit: no cache write, no chart. -/
theorem saida_fatal_numero_de_arquivos (arquivos : List String)
    (cache : List Registro) (c d s : List LinhaBruta)
    (cidades : List String) (janela : Nat)
    (h1 : arquivos ≠ []) (h2 : arquivos.length ≠ 3) :
    rodarPrograma arquivos false cache c d s cidades janela =
      .error (.saida mensagemSaida) := by
  cases arquivos with
  | nil => exact absurd rfl h1
  | cons a resto =>
    simp only [List.length_cons] at h2
    simp [rodarPrograma]
    omega

/-- Witness for `saida_fatal_numero_de_arquivos` with two matched files. -/
theorem saida_fatal_numero_de_arquivos_witness :
    rodarPrograma ["Banco Estadual COVID-19 CONFIRMADOS_2021-01-01.csv",
      "Banco Estadual COVID-19 SUSPEITOS_2021-01-01.csv"] false [] [] [] [] [] 7 =
      .error (.saida mensagemSaida) :=
  saida_fatal_numero_de_arquivos _ [] [] [] [] [] 7 (by simp) (by simp)

/-- Claim C9: with no file matching the glob, the run fails with the
out-of-bounds indexing of `arquivos[0]`, whether or not a cache exists,
before the file-count check; and the human-readable file-count exit is
reached only when at least one file matched. -/
theorem falha_indice_sem_arquivos (cacheExiste : Bool) (cache : List Registro)
    (c d s : List LinhaBruta) (cidades : List String) (janela : Nat) :
    rodarPrograma [] cacheExiste cache c d s cidades janela =
      .error .indiceForaDoLimite ∧
    ∀ arquivos mensagem,
      rodarPrograma arquivos cacheExiste cache c d s cidades janela =
        .error (.saida mensagem) → arquivos ≠ [] := by
  refine ⟨rfl, ?_⟩
  intro arquivos mensagem h hnil
  subst hnil
  simp [rodarPrograma] at h

/-- Witness for `falha_indice_sem_arquivos`: the empty glob fails with the
indexing error even with a cache present, and a two-file run that reaches
the readable exit indeed had a non-empty glob. -/
theorem falha_indice_sem_arquivos_witness :
    rodarPrograma [] true [] [] [] [] [] 7 = .error .indiceForaDoLimite ∧
    (["Banco Estadual COVID-19 CONFIRMADOS_2021-01-01.csv",
      "Banco Estadual COVID-19 SUSPEITOS_2021-01-01.csv"] : List String) ≠ [] :=
  ⟨(falha_indice_sem_arquivos true [] [] [] [] [] 7).1,
   (falha_indice_sem_arquivos false [] [] [] [] [] 7).2
     ["Banco Estadual COVID-19 CONFIRMADOS_2021-01-01.csv",
      "Banco Estadual COVID-19 SUSPEITOS_2021-01-01.csv"] mensagemSaida
     (by simp [rodarPrograma])⟩
